import Mathlib

/-! WOFS, the write-only filesystem module (`src/wofs.c`).

A shallow embedding of the kernel module and the properties of its request
handlers: `wofs_lookup`, `wofs_create`, `wofs_mkdir`, `wofs_write`,
`wofs_fill_super`, `open_dev_null`, `wofs_init` and `wofs_exit`.

Conventions of the embedding.

* The module's global `dev_null_file`, the superblock, the inode memory, the
  dentry cache and the kernel's inode-number counter are fields of `State`;
  every C function becomes a Lean function from a `State` to its return
  value and the next `State`.
* A C pointer is a `Ptr`: `NULL`, an `ERR_PTR` value, or a live object.
* What the kernel decides (whether an allocation succeeds, what
  `kernel_write` and `filp_open` answer) is an explicit argument, so a
  theorem quantified over it covers every behaviour of the kernel.
* `pr_info` and `pr_err` only write to the kernel log and are left out.
-/

set_option linter.unusedVariables false

namespace Wofs

/-! ## Constants of the kernel headers -/

/-- Errno `ENOENT`. -/
def ENOENT : Int := 2

/-- Errno for an I/O error. -/
def EIO : Int := 5

/-- Errno `ENOMEM`. -/
def ENOMEM : Int := 12

/-- Largest errno an error pointer can carry (`MAX_ERRNO`, linux/err.h). -/
def MAX_ERRNO : Int := 4095

/-- File-type mask of `i_mode`. -/
def S_IFMT : Nat := 0o170000

/-- File-type bits of a directory. -/
def S_IFDIR : Nat := 0o040000

/-- File-type bits of a regular file. -/
def S_IFREG : Nat := 0o100000

/-- Largest value of `ssize_t` on a 64-bit kernel. -/
def SSIZE_MAX : Nat := 2 ^ 63 - 1

/-- Conversion of a `size_t` value to `ssize_t`, as `return count;` in a function
returning `ssize_t` performs it (two's complement, 64 bits). -/
def to_ssize_t (n : Nat) : Int :=
  if n % 2 ^ 64 < 2 ^ 63 then ((n % 2 ^ 64 : Nat) : Int)
  else ((n % 2 ^ 64 : Nat) : Int) - 2 ^ 64

/-! ## Pointers -/

/-- A C pointer value: `NULL`, a pointer that holds the integer `e` as its
address and points to no object (what `ERR_PTR` makes), or the address of a
live object (modelled by the object itself). -/
inductive Ptr (α : Type) where
  | null : Ptr α
  | err (e : Int) : Ptr α
  | obj (a : α) : Ptr α
  deriving DecidableEq, Repr

/-- Kernel helper `ERR_PTR`: the pointer whose address is the (negative) errno;
`ERR_PTR(0)` is `NULL`. -/
def ERR_PTR {α : Type} (e : Int) : Ptr α :=
  if e = 0 then Ptr.null else Ptr.err e

/-- Kernel helper `IS_ERR` (linux/err.h): true exactly for the addresses
`-MAX_ERRNO .. -1`. -/
def IS_ERR {α : Type} : Ptr α → Bool
  | Ptr.err e => decide (- MAX_ERRNO ≤ e ∧ e < 0)
  | _ => false

/-- Kernel helper `PTR_ERR`: the errno an error pointer carries. -/
def PTR_ERR {α : Type} : Ptr α → Int
  | Ptr.err e => e
  | _ => 0

/-- C truth value of a pointer: everything but `NULL` is true. -/
def Ptr.truthy {α : Type} : Ptr α → Bool
  | Ptr.null => false
  | _ => true

/-! ## Operation tables -/

/-- The handlers of this module that are bound into operation tables. -/
inductive Handler where
  | wofs_write
  | wofs_lookup
  | wofs_create
  | wofs_mkdir
  deriving DecidableEq, Repr

/-- The members of `struct file_operations` the module sets (all others stay
unset). -/
structure file_operations where
  write : Option Handler
  deriving DecidableEq, Repr

/-- The members of `struct inode_operations` the module sets. -/
structure inode_operations where
  lookup : Option Handler
  create : Option Handler
  mkdir : Option Handler
  deriving DecidableEq, Repr

/-- Kernel functions named in `wofs_super_ops`. -/
inductive KernelFn where
  | simple_statfs
  | generic_delete_inode
  deriving DecidableEq, Repr

/-- The members of `struct super_operations` the module sets. -/
structure super_operations where
  statfs : Option KernelFn
  drop_inode : Option KernelFn
  deriving DecidableEq, Repr

/-- Table `wofs_file_operations` (lines 46-49): only `.write` is set. -/
def wofs_file_operations : file_operations :=
  { write := some Handler.wofs_write }

/-- Table `wofs_inode_ops` (lines 52-56). -/
def wofs_inode_ops : inode_operations :=
  { lookup := some Handler.wofs_lookup
    create := some Handler.wofs_create
    mkdir := some Handler.wofs_mkdir }

/-- Table `wofs_super_ops` (lines 89-92). -/
def wofs_super_ops : super_operations :=
  { statfs := some KernelFn.simple_statfs
    drop_inode := some KernelFn.generic_delete_inode }

/-- The kernel's default `i_op` of a new inode: no handler. -/
def empty_iops : inode_operations :=
  { lookup := none, create := none, mkdir := none }

/-- The kernel's default `i_fop` of a new inode: no handler. -/
def no_open_fops : file_operations :=
  { write := none }

/-! ## Kernel objects -/

/-- The fields of `struct inode` the module reads or writes. -/
structure inode where
  i_ino : Nat
  i_mode : Nat
  i_op : inode_operations
  i_fop : file_operations
  deriving DecidableEq, Repr

/-- The fields of `struct dentry` the module touches: the parent directory
(an inode address, `none` for a root), the name, and the inode the name is
bound to (`none` for a negative dentry). -/
structure dentry where
  d_parent : Option Nat
  d_name : String
  d_inode : Option Nat
  deriving DecidableEq, Repr

/-- The fields of `struct file` the module touches: for an open file of the
filesystem the inode it was opened on, and the file position. -/
structure file where
  f_inode : Nat
  f_pos : Int
  deriving DecidableEq, Repr

/-- The fields of `struct super_block` the module writes. -/
structure super_block where
  s_magic : Nat
  s_op : Option super_operations
  s_root : Option dentry
  deriving DecidableEq, Repr

/-- Which `loff_t` cell a position pointer designates: the cell behind the
caller's `ppos`, or the `f_pos` field of the file `dev_null_file` points to. -/
inductive loff_ref where
  | caller_ppos
  | dev_null_f_pos
  deriving DecidableEq, Repr

/-- One call of `kernel_write` as the kernel received it: the file, the
bytes and byte count, the position cell passed and the position it held. -/
structure kwrite_call where
  target : file
  data : List UInt8
  count : Nat
  pos_ref : loff_ref
  pos : Int
  deriving DecidableEq, Repr

/-- What the kernel answers to one `kernel_write`: its return value (a byte
count, possibly short, or a negative errno) and the position it leaves in the
cell it was given. -/
structure kw_reply where
  ret : Int
  new_pos : Int
  deriving DecidableEq, Repr

/-- What the kernel answers to `filp_open`: an open file or an errno. -/
inductive filp_open_reply where
  | opened (f : file)
  | failed (errno : Int)
  deriving DecidableEq, Repr

/-- A kernel fault: a pointer that is neither `NULL` nor valid was followed. -/
inductive Fault where
  | bad_pointer
  deriving DecidableEq, Repr

/-- The state the module runs in.

* `dev_null_file`: the module global of line 19.
* `kwrites`: the `kernel_write` calls made so far, newest first.
* `closed`: the pointers handed to `filp_close` so far, newest first.
* `misc_registered`, `fs_registered`: whether the character device and the
  filesystem type are registered.
* `last_ino`: the inode number `get_next_ino` handed out last.
* `sb`: the superblock of the mounted instance.
* `inodes`: the inodes of the superblock; an inode's address is its index.
* `dcache`: the dentries bound by `d_add`, newest first. -/
structure State where
  dev_null_file : Ptr file
  kwrites : List kwrite_call
  closed : List (Ptr file)
  misc_registered : Bool
  fs_registered : Bool
  last_ino : Nat
  sb : super_block
  inodes : List inode
  dcache : List dentry
  deriving DecidableEq, Repr

/-- Result of `wofs_write`: the returned `ssize_t`, the value left in the
caller's `*ppos`, and the next state. -/
structure write_out where
  ret : Int
  ppos : Int
  state : State
  deriving DecidableEq, Repr

/-! ## Kernel services the module calls -/

/-- An inode as `new_inode` hands it out, before the caller fills it in. -/
def blank_inode : inode :=
  { i_ino := 0, i_mode := 0, i_op := empty_iops, i_fop := no_open_fops }

/-- Kernel service `new_inode(sb)`: when memory is available (`mem_ok`) a
blank inode is added to the superblock's inodes and its address returned;
otherwise `NULL` (`none`) and nothing changes. -/
def new_inode (s : State) (mem_ok : Bool) : Option Nat × State :=
  if mem_ok then
    (some s.inodes.length, { s with inodes := s.inodes ++ [blank_inode] })
  else
    (none, s)

/-- Apply `f` to the element at index `p` of a list (a store through a
pointer); an index past the end changes nothing. -/
def update_at {α : Type} (f : α → α) : Nat → List α → List α
  | _, [] => []
  | 0, x :: xs => f x :: xs
  | p + 1, x :: xs => x :: update_at f p xs

/-- Store into the inode at address `p`. -/
def set_inode (s : State) (p : Nat) (f : inode → inode) : State :=
  { s with inodes := update_at f p s.inodes }

/-- Kernel service `get_next_ino()`, called at line 68 and defined in the
kernel (fs/inode.c), not in this module. `seen` is the `unsigned int` value
the kernel starts from at this call: the executing CPU's `last_ino`, or, at a
batch boundary on SMP, the base of a new batch taken from the shared counter.
The counter belongs to the whole kernel: every other filesystem advances it,
so from the module's side `seen` is arbitrary at each call. The value is
incremented, wrapping at `2^32`, incremented once more when it reads zero,
stored as the CPU's new `last_ino` and returned. -/
def get_next_ino (s : State) (seen : Nat) : Nat × State :=
  let res := (seen + 1) % 2 ^ 32
  let res := if res = 0 then (res + 1) % 2 ^ 32 else res
  (res, { s with last_ino := res })

/-- Kernel service `d_add(dentry, inode)`: binds the dentry to the inode and
enters it in the dentry cache. -/
def d_add (s : State) (d : dentry) (p : Nat) : State :=
  { s with dcache := { d with d_inode := some p } :: s.dcache }

/-- Kernel service `d_make_root(root_inode)`: when a dentry can be allocated
(`mem_ok`) the root dentry `/` bound to the inode; otherwise the inode is
released again and `NULL` is returned. -/
def d_make_root (s : State) (root_inode : Nat) (mem_ok : Bool) :
    Option dentry × State :=
  if mem_ok then
    (some { d_parent := none, d_name := "/", d_inode := some root_inode }, s)
  else
    (none, { s with inodes := s.inodes.eraseIdx root_inode })

/-- Kernel service `kernel_write(file, buf, count, pos)`: following a pointer
that is not a live file is a fault; otherwise the call is recorded with the
position read from the cell `pos` designates, the kernel's answer `reply`
gives the return value, and the position it leaves is stored back into that
same cell. `ppos` is the current content of the caller's position cell.
Returns the return value, the next state and the caller's cell. -/
def kernel_write (s : State) (ppos : Int) (fp : Ptr file) (buf : List UInt8)
    (count : Nat) (pos : loff_ref) (reply : kw_reply) :
    Except Fault (Int × State × Int) :=
  match fp with
  | Ptr.obj f =>
    match pos with
    | loff_ref.caller_ppos =>
      Except.ok (reply.ret,
        { s with kwrites := { target := f, data := buf, count := count,
                              pos_ref := pos, pos := ppos } :: s.kwrites },
        reply.new_pos)
    | loff_ref.dev_null_f_pos =>
      match s.dev_null_file with
      | Ptr.obj g =>
        Except.ok (reply.ret,
          { s with dev_null_file := Ptr.obj { g with f_pos := reply.new_pos }
                   kwrites := { target := f, data := buf, count := count,
                                pos_ref := pos, pos := g.f_pos } :: s.kwrites },
          ppos)
      | _ => Except.error Fault.bad_pointer
  | _ => Except.error Fault.bad_pointer

/-- Kernel service `filp_open`: an open file, or `ERR_PTR(-errno)`. -/
def filp_open (r : filp_open_reply) : Ptr file :=
  match r with
  | filp_open_reply.opened f => Ptr.obj f
  | filp_open_reply.failed errno => ERR_PTR (-errno)

/-- Kernel service `filp_close`: the call is recorded in `closed` with the
pointer it was given. -/
def filp_close (s : State) (fp : Ptr file) : State :=
  { s with closed := fp :: s.closed }

/-- Kernel service `misc_register`: `ret` is the kernel's answer. -/
def misc_register (s : State) (ret : Int) : Int × State :=
  (ret, if ret = 0 then { s with misc_registered := true } else s)

/-- Kernel service `misc_deregister`. -/
def misc_deregister (s : State) : State :=
  { s with misc_registered := false }

/-- Kernel service `register_filesystem`: `ret` is the kernel's answer. -/
def register_filesystem (s : State) (ret : Int) : Int × State :=
  (ret, if ret = 0 then { s with fs_registered := true } else s)

/-- Kernel service `unregister_filesystem`. -/
def unregister_filesystem (s : State) : State :=
  { s with fs_registered := false }

/-- Kernel service `kill_litter_super`, the `.kill_sb` of `wofs_fs_type`
(line 133), run when the filesystem is unmounted: every dentry and inode of
the superblock is dropped. It is kernel code and knows nothing of the
module's global `dev_null_file`. -/
def kill_litter_super (s : State) : State :=
  { s with sb := { s.sb with s_root := none }, inodes := [], dcache := [] }

/-! ## The module's functions -/

/-- Function `open_dev_null` (lines 29-36). -/
def open_dev_null (s : State) (r : filp_open_reply) : Int × State :=
  let s1 := { s with dev_null_file := filp_open r }
  if IS_ERR s1.dev_null_file then
    (PTR_ERR s1.dev_null_file, s1)
  else
    (0, s1)

/-- Function `wofs_write` (lines 39-43). `fl` and `ppos` are the caller's
file and the content of the caller's position cell; neither is used. -/
def wofs_write (s : State) (fl : file) (buf : List UInt8) (count : Nat)
    (ppos : Int) (reply : kw_reply) : Except Fault write_out :=
  if ¬ s.dev_null_file.truthy then
    Except.ok { ret := - EIO, ppos := ppos, state := s }
  else
    match kernel_write s ppos s.dev_null_file buf count
        loff_ref.dev_null_f_pos reply with
    | Except.error e => Except.error e
    | Except.ok (_, s1, ppos1) =>
      Except.ok { ret := to_ssize_t count, ppos := ppos1, state := s1 }

/-- Function `wofs_lookup` (lines 59-74). `dir` is the address of the parent
directory's inode, `d` the negative dentry of the name being resolved,
`mem_ok` whether `new_inode` finds memory and `seen` the counter value
`get_next_ino` starts from. The result is the returned `struct dentry *`. -/
def wofs_lookup (s : State) (dir : Nat) (d : dentry) (flags : Nat)
    (mem_ok : Bool) (seen : Nat) : Ptr dentry × State :=
  match new_inode s mem_ok with
  | (none, s1) => (ERR_PTR (- ENOMEM), s1)
  | (some p, s1) =>
    let (ino, s2) := get_next_ino s1 seen
    let s3 := set_inode s2 p (fun i => { i with i_ino := ino })
    let s4 := set_inode s3 p (fun i => { i with i_mode := S_IFREG ||| 0o644 })
    let s5 := set_inode s4 p (fun i => { i with i_fop := wofs_file_operations })
    (Ptr.null, d_add s5 d p)

/-- Function `wofs_create` (lines 77-80). -/
def wofs_create (s : State) (idmap : Nat) (dir : Nat) (d : dentry)
    (mode : Nat) (excl : Bool) (mem_ok : Bool) (seen : Nat) : Int × State :=
  match wofs_lookup s dir d 0 mem_ok seen with
  | (r, s1) => (if r.truthy then 0 else - ENOMEM, s1)

/-- Function `wofs_mkdir` (lines 83-86). -/
def wofs_mkdir (s : State) (idmap : Nat) (dir : Nat) (d : dentry)
    (mode : Nat) : Int × State :=
  (0, s)

/-- Function `wofs_fill_super` (lines 95-121), on the superblock of the
state. `inode_ok` and `dentry_ok` say whether `new_inode` and `d_make_root`
find memory. -/
def wofs_fill_super (s : State) (silent : Int) (inode_ok dentry_ok : Bool) :
    Int × State :=
  let s1 := { s with sb := { s.sb with s_magic := 0xDEADBEEF } }
  let s2 := { s1 with sb := { s1.sb with s_op := some wofs_super_ops } }
  match new_inode s2 inode_ok with
  | (none, s3) => (- ENOMEM, s3)
  | (some root_inode, s3) =>
    let s4 := set_inode s3 root_inode (fun i => { i with i_ino := 1 })
    let s5 := set_inode s4 root_inode
      (fun i => { i with i_mode := S_IFDIR ||| 0o755 })
    let s6 := set_inode s5 root_inode (fun i => { i with i_op := wofs_inode_ops })
    let s7 := set_inode s6 root_inode
      (fun i => { i with i_fop := wofs_file_operations })
    match d_make_root s7 root_inode dentry_ok with
    | (none, s8) => (- ENOMEM, s8)
    | (some root_dentry, s8) =>
      (0, { s8 with sb := { s8.sb with s_root := some root_dentry } })

/-- Function `wofs_init` (lines 150-176). `r`, `misc_ret` and `fs_ret` are
the kernel's answers to `filp_open`, `misc_register` and
`register_filesystem`. -/
def wofs_init (s : State) (r : filp_open_reply) (misc_ret fs_ret : Int) :
    Int × State :=
  match open_dev_null s r with
  | (ret, s1) =>
    if ret ≠ 0 then (ret, s1)
    else
      match misc_register s1 misc_ret with
      | (ret, s2) =>
        if ret ≠ 0 then (ret, s2)
        else
          match register_filesystem s2 fs_ret with
          | (ret, s3) =>
            if ret ≠ 0 then (ret, misc_deregister s3)
            else (0, s3)

/-- Function `wofs_exit` (lines 179-193). -/
def wofs_exit (s : State) : State :=
  let s1 :=
    if s.dev_null_file.truthy ∧ ¬ IS_ERR s.dev_null_file then
      { filp_close s s.dev_null_file with dev_null_file := Ptr.null }
    else s
  misc_deregister (unregister_filesystem s1)

/-! ## Runs of the directory handlers -/

/-- One call of a handler of `wofs_inode_ops` with its arguments and, for the
allocating ones, what the kernel answers: whether `new_inode` finds memory
and the counter value `get_next_ino` starts from. -/
inductive Call where
  | lookup (dir : Nat) (d : dentry) (flags : Nat) (mem_ok : Bool) (seen : Nat)
  | create (idmap : Nat) (dir : Nat) (d : dentry) (mode : Nat) (excl : Bool)
      (mem_ok : Bool) (seen : Nat)
  | mkdir (idmap : Nat) (dir : Nat) (d : dentry) (mode : Nat)
  deriving DecidableEq, Repr

/-- The inode number `get_next_ino` hands out during the call, when the call
gets that far (`none` for `wofs_mkdir` and when `new_inode` fails). -/
def Call.ino (s : State) : Call → Option Nat
  | Call.lookup _ _ _ mem_ok seen =>
    if mem_ok then some (get_next_ino s seen).1 else none
  | Call.create _ _ _ _ _ mem_ok seen =>
    if mem_ok then some (get_next_ino s seen).1 else none
  | Call.mkdir _ _ _ _ => none

/-- The state when the module's code is loaded and before `wofs_init` runs:
`dev_null_file` is `NULL` (line 19), nothing is registered or mounted, and the
inode number the kernel handed out last is `c`. -/
def boot (c : Nat) : State :=
  { dev_null_file := Ptr.null
    kwrites := []
    closed := []
    misc_registered := false
    fs_registered := false
    last_ino := c
    sb := { s_magic := 0, s_op := none, s_root := none }
    inodes := []
    dcache := [] }

/-! ## States of the walk-through scenarios -/

/-- The name `a.txt` under the root directory (inode address 0), not yet
bound to an inode. -/
def a_txt : dentry :=
  { d_parent := some 0, d_name := "a.txt", d_inode := none }

/-- An open file on the node fabricated for `a.txt` (inode address 1). -/
def a_file : file :=
  { f_inode := 1, f_pos := 0 }

/-- The module loaded: `wofs_init` from the boot state with every kernel call
succeeding. -/
def loaded (c : Nat) : State :=
  (wofs_init (boot c) (filp_open_reply.opened { f_inode := 0, f_pos := 0 }) 0 0).2

/-- The filesystem mounted on a loaded module: `wofs_fill_super` with both
allocations succeeding. -/
def mounted (c : Nat) : State :=
  (wofs_fill_super (loaded c) 0 true true).2

/-- The module after a load attempt in which `/dev/null` could not be
opened. -/
def open_failed : State :=
  (wofs_init (boot 0) (filp_open_reply.failed ENOENT) 0 0).2

/-- The state a `wofs_write` leaves (the state it started in when it
faulted). -/
def after_write (s : State) (fl : file) (buf : List UInt8) (count : Nat)
    (ppos : Int) (reply : kw_reply) : State :=
  match wofs_write s fl buf count ppos reply with
  | Except.ok out => out.state
  | Except.error _ => s

/-- Mounted, then `a.txt` created with the exclusive flag (memory
available). -/
def scenario_created : State :=
  (wofs_create (mounted 100) 0 0 a_txt 0o644 true true 100).2

/-- Then 1024 bytes written at offset 0, all of them taken by the sink. -/
def scenario_written : State :=
  after_write scenario_created a_file (List.replicate 1024 0) 1024 0
    { ret := 1024, new_pos := 0 }

/-- Then the filesystem unmounted. -/
def scenario_unmounted : State :=
  kill_litter_super scenario_written

/-! ## Stores through a fresh pointer -/

/-- A store through the address of the inode allocated last reaches exactly
that inode. -/
theorem update_at_length_append {α : Type} (f : α → α) (l : List α) (x : α) :
    update_at f l.length (l ++ [x]) = l ++ [f x] := by
  induction l with
  | nil => rfl
  | cons y ys ih => simp [update_at, ih]

/-- Releasing the inode allocated last restores the inode memory. -/
theorem eraseIdx_length_append {α : Type} (l : List α) (x : α) :
    (l ++ [x]).eraseIdx l.length = l := by
  induction l with
  | nil => rfl
  | cons y ys ih => simp [List.eraseIdx, ih]

/-- The inodes after a successful `wofs_lookup`: the old ones, then the new
regular file carrying the next inode number. -/
theorem wofs_lookup_inodes (s : State) (dir : Nat) (d : dentry) (flags : Nat)
    (seen : Nat) :
    (wofs_lookup s dir d flags true seen).2.inodes =
      s.inodes ++ [{ i_ino := (get_next_ino s seen).1, i_mode := S_IFREG ||| 0o644,
                     i_op := empty_iops, i_fop := wofs_file_operations }] := by
  simp [wofs_lookup, new_inode, get_next_ino, set_inode, d_add,
    update_at_length_append, blank_inode]

/-! ## Claims -/

/-- C7: for every parent directory, name and mode, `wofs_mkdir` returns 0 and
leaves the whole state unchanged: the inodes, the dentry cache (no name is
bound) and the inode-number counter are what they were, also when the name
was fabricated as a file just before. -/
theorem wofs_mkdir_succeeds_without_effect (s : State) (idmap dir : Nat)
    (d : dentry) (mode flags : Nat) (mem_ok : Bool) (seen : Nat) :
    wofs_mkdir s idmap dir d mode = (0, s) ∧
    (wofs_mkdir s idmap dir d mode).2.inodes = s.inodes ∧
    (wofs_mkdir s idmap dir d mode).2.dcache = s.dcache ∧
    (wofs_mkdir s idmap dir d mode).2.last_ino = s.last_ino ∧
    wofs_mkdir (wofs_lookup s dir d flags mem_ok seen).2 idmap dir d mode =
      (0, (wofs_lookup s dir d flags mem_ok seen).2) := by
  simp [wofs_mkdir]

/-- C1 (the code departs from it): `wofs_create` returns `-ENOMEM` exactly when
`wofs_lookup` succeeded (returned `NULL`, having allocated and bound the node)
and returns 0 exactly when the allocation failed, for every parent, name, mode
and exclusive flag; in both cases its state is the one `wofs_lookup` leaves.
On the mounted scenario state, creating `a.txt` exclusively with memory
available returns -12. -/
theorem wofs_create_inverts_lookup_result (s : State) (idmap dir : Nat)
    (d : dentry) (mode : Nat) (excl : Bool) (seen : Nat) :
    (wofs_create (mounted 100) 0 0 a_txt 0o644 true true 100).1 = -12 ∧
    (wofs_create (mounted 100) 0 0 a_txt 0o644 true false 100).1 = 0 ∧
    (wofs_lookup s dir d 0 true seen).1 = Ptr.null ∧
    (wofs_create s idmap dir d mode excl true seen).1 = - ENOMEM ∧
    (wofs_create s idmap dir d mode excl true seen).2.inodes.length =
      s.inodes.length + 1 ∧
    (wofs_lookup s dir d 0 false seen).1 = ERR_PTR (- ENOMEM) ∧
    (wofs_create s idmap dir d mode excl false seen).1 = 0 ∧
    (wofs_create s idmap dir d mode excl false seen).2 = s ∧
    (∀ mem_ok, (wofs_create s idmap dir d mode excl mem_ok seen).2 =
      (wofs_lookup s dir d 0 mem_ok seen).2) := by
  have hi := wofs_lookup_inodes s dir d 0 seen
  refine ⟨by decide, by decide, ?_, ?_, ?_, ?_, ?_, ?_, ?_⟩
  · simp [wofs_lookup, new_inode, get_next_ino]
  · simp [wofs_create, wofs_lookup, new_inode, get_next_ino, Ptr.truthy]
  · have : (wofs_create s idmap dir d mode excl true seen).2 =
        (wofs_lookup s dir d 0 true seen).2 := by simp [wofs_create]
    rw [this, hi]; simp
  · simp [wofs_lookup, new_inode]
  · simp [wofs_create, wofs_lookup, new_inode, ERR_PTR, ENOMEM, Ptr.truthy]
  · simp [wofs_create, wofs_lookup, new_inode]
  · intro mem_ok; simp [wofs_create]

/-- C5: for every parent directory, name and flags, `wofs_lookup` with memory
available returns the success value `NULL`, appends to the inodes one new
inode (all existing ones untouched) that is a regular file of mode 0644 whose
`i_fop` is the table with `wofs_write` as its write handler, binds the name to
that new inode, and changes nothing else but the inode counter; without
memory it returns `ERR_PTR(-ENOMEM)` and changes nothing; and in no case does
it return the not-found error. -/
theorem wofs_lookup_always_fabricates (s : State) (dir : Nat) (d : dentry)
    (flags : Nat) (seen : Nat) :
    wofs_lookup s dir d flags true seen =
      (Ptr.null,
       { s with
         last_ino := (get_next_ino s seen).1
         inodes := s.inodes ++
           [{ i_ino := (get_next_ino s seen).1, i_mode := S_IFREG ||| 0o644,
              i_op := empty_iops, i_fop := wofs_file_operations }]
         dcache := { d with d_inode := some s.inodes.length } :: s.dcache }) ∧
    (S_IFREG ||| 0o644) &&& S_IFMT = S_IFREG ∧
    (S_IFREG ||| 0o644) &&& 0o7777 = 0o644 ∧
    wofs_file_operations.write = some Handler.wofs_write ∧
    wofs_lookup s dir d flags false seen = (Ptr.err (- ENOMEM), s) ∧
    (∀ mem_ok, (wofs_lookup s dir d flags mem_ok seen).1 ≠
      ERR_PTR (- ENOENT)) := by
  refine ⟨?_, by decide, by decide, rfl, ?_, ?_⟩
  · simp [wofs_lookup, new_inode, get_next_ino, set_inode, d_add,
      update_at_length_append, blank_inode]
  · simp [wofs_lookup, new_inode, ERR_PTR, ENOMEM]
  · intro mem_ok
    cases mem_ok <;>
      simp [wofs_lookup, new_inode, get_next_ino, ERR_PTR, ENOMEM, ENOENT]

/-- C9: with both allocations succeeding `wofs_fill_super` returns 0 and
installs as `s_root` the root dentry of a new inode with `i_ino` 1, directory
type, mode 0755, `i_op` the table of `wofs_lookup`, `wofs_create` and
`wofs_mkdir`, and `i_fop` the table of `wofs_write`; when the inode or the
root dentry cannot be allocated it returns `-ENOMEM`, leaves `s_root` as it
was (unset on a new superblock) and leaves no inode behind. -/
theorem wofs_fill_super_installs_root (s : State) (silent : Int) :
    wofs_fill_super s silent true true =
      (0,
       { s with
         sb := { s_magic := 0xDEADBEEF, s_op := some wofs_super_ops
                 s_root := some { d_parent := none, d_name := "/"
                                  d_inode := some s.inodes.length } }
         inodes := s.inodes ++
           [{ i_ino := 1, i_mode := S_IFDIR ||| 0o755,
              i_op := wofs_inode_ops, i_fop := wofs_file_operations }] }) ∧
    (S_IFDIR ||| 0o755) &&& S_IFMT = S_IFDIR ∧
    (S_IFDIR ||| 0o755) &&& 0o7777 = 0o755 ∧
    wofs_inode_ops.lookup = some Handler.wofs_lookup ∧
    wofs_inode_ops.create = some Handler.wofs_create ∧
    wofs_inode_ops.mkdir = some Handler.wofs_mkdir ∧
    wofs_file_operations.write = some Handler.wofs_write ∧
    (∀ dentry_ok,
      (wofs_fill_super s silent false dentry_ok).1 = - ENOMEM ∧
      (wofs_fill_super s silent false dentry_ok).2.sb.s_root = s.sb.s_root ∧
      (wofs_fill_super s silent false dentry_ok).2.inodes = s.inodes) ∧
    (wofs_fill_super s silent true false).1 = - ENOMEM ∧
    (wofs_fill_super s silent true false).2.sb.s_root = s.sb.s_root ∧
    (wofs_fill_super s silent true false).2.inodes = s.inodes ∧
    (wofs_fill_super (boot 0) silent false true).2.sb.s_root = none ∧
    (wofs_fill_super (boot 0) silent true false).2.sb.s_root = none := by
  refine ⟨?_, by decide, by decide, rfl, rfl, rfl, rfl, ?_, ?_, ?_, ?_, ?_, ?_⟩
  · simp [wofs_fill_super, new_inode, set_inode, d_make_root,
      update_at_length_append, blank_inode]
  · intro dentry_ok
    simp [wofs_fill_super, new_inode]
  · simp [wofs_fill_super, new_inode, set_inode, d_make_root,
      update_at_length_append]
  · simp [wofs_fill_super, new_inode, set_inode, d_make_root,
      update_at_length_append]
  · simp [wofs_fill_super, new_inode, set_inode, d_make_root,
      update_at_length_append, eraseIdx_length_append]
  · simp [wofs_fill_super, new_inode, boot]
  · simp [wofs_fill_super, new_inode, set_inode, d_make_root, boot]

/-- With the sink open `wofs_write` makes one `kernel_write` on the sink's own
position cell and returns the count converted to `ssize_t`. -/
theorem wofs_write_open (s : State) (f fl : file) (b : List UInt8)
    (count : Nat) (ppos : Int) (reply : kw_reply)
    (hopen : s.dev_null_file = Ptr.obj f) :
    wofs_write s fl b count ppos reply =
      Except.ok
        { ret := to_ssize_t count
          ppos := ppos
          state :=
            { s with
              dev_null_file := Ptr.obj { f with f_pos := reply.new_pos }
              kwrites := { target := f, data := b, count := count
                           pos_ref := loff_ref.dev_null_f_pos
                           pos := f.f_pos } :: s.kwrites } } := by
  simp [wofs_write, kernel_write, hopen, Ptr.truthy]

/-- The sink reference after a write on an open sink. -/
theorem after_write_dev_null (s : State) (f fl : file) (b : List UInt8)
    (count : Nat) (ppos : Int) (reply : kw_reply)
    (hopen : s.dev_null_file = Ptr.obj f) :
    (after_write s fl b count ppos reply).dev_null_file =
      Ptr.obj { f with f_pos := reply.new_pos } := by
  simp [after_write, wofs_write_open s f fl b count ppos reply hopen]

/-- The sink reference of the scenario once `a.txt` is created. -/
theorem scenario_created_dev_null :
    scenario_created.dev_null_file = Ptr.obj { f_inode := 0, f_pos := 0 } := by
  simp [scenario_created, mounted, loaded, wofs_create, wofs_lookup,
    new_inode, get_next_ino, set_inode, d_add, wofs_fill_super, d_make_root,
    wofs_init, open_dev_null, filp_open, IS_ERR, misc_register,
    register_filesystem, boot]

/-- The sink reference of the scenario after the unmount. -/
theorem scenario_unmounted_dev_null :
    scenario_unmounted.dev_null_file = Ptr.obj { f_inode := 0, f_pos := 0 } := by
  have hw := after_write_dev_null scenario_created _ a_file
    (List.replicate 1024 0) 1024 0 { ret := 1024, new_pos := 0 }
    scenario_created_dev_null
  simp only [scenario_unmounted, kill_litter_super, scenario_written]
  exact hw

/-- Conversion to `ssize_t` keeps every count up to `SSIZE_MAX`. -/
theorem to_ssize_t_of_le (n : Nat) (h : n ≤ SSIZE_MAX) : to_ssize_t n = (n : Int) := by
  unfold SSIZE_MAX at h
  unfold to_ssize_t
  have h1 : n % 2 ^ 64 = n := Nat.mod_eq_of_lt (by omega)
  rw [h1]
  have h2 : n < 2 ^ 63 := by omega
  rw [if_pos h2]

/-- C2 as stated fails: the count is returned through the `ssize_t` return
type, so with the sink open a buffer of `2^63` bytes is reported as
`-2^63`, not as its length. -/
theorem wofs_write_length_past_ssize_max :
    (List.replicate (2 ^ 63) (0 : UInt8)).length = 2 ^ 63 ∧
    Except.map write_out.ret
        (wofs_write scenario_created a_file (List.replicate (2 ^ 63) 0)
          (2 ^ 63) 0 { ret := 0, new_pos := 0 }) =
      Except.ok (-9223372036854775808) ∧
    to_ssize_t (2 ^ 63) ≠ ((2 ^ 63 : Nat) : Int) := by
  have h : to_ssize_t (2 ^ 63) = -9223372036854775808 := by decide
  refine ⟨List.length_replicate _ _, ?_, by decide⟩
  rw [wofs_write_open _ _ _ _ _ _ _ scenario_created_dev_null, h]
  rfl

/-- C2, amended: while `dev_null_file` points to an open file, for every
caller file (node), every buffer `b` of at most `SSIZE_MAX` bytes (the empty
buffer included), every offset and every answer of `kernel_write` (full, short
or an error), `wofs_write` returns exactly the length of `b`, having passed
the buffer on once. -/
theorem wofs_write_reports_full_length (s : State) (f fl : file)
    (b : List UInt8) (ppos : Int) (reply : kw_reply)
    (hopen : s.dev_null_file = Ptr.obj f) (hlen : b.length ≤ SSIZE_MAX) :
    wofs_write s fl b b.length ppos reply =
      Except.ok
        { ret := (b.length : Int)
          ppos := ppos
          state :=
            { s with
              dev_null_file := Ptr.obj { f with f_pos := reply.new_pos }
              kwrites := { target := f, data := b, count := b.length
                           pos_ref := loff_ref.dev_null_f_pos
                           pos := f.f_pos } :: s.kwrites } } := by
  rw [wofs_write_open s f fl b b.length ppos reply hopen,
    to_ssize_t_of_le _ hlen]

/-- Witness for C2 as amended: on the mounted scenario state the empty buffer, a
1024-byte buffer and a buffer whose forward fails with `-EIO` all report
their full length. -/
theorem wofs_write_reports_full_length_witness :
    Except.map write_out.ret
        (wofs_write scenario_created a_file [] 0 0 { ret := 0, new_pos := 0 }) =
      Except.ok 0 ∧
    Except.map write_out.ret
        (wofs_write scenario_created a_file (List.replicate 1024 7) 1024 0
          { ret := 100, new_pos := 100 }) =
      Except.ok 1024 ∧
    Except.map write_out.ret
        (wofs_write scenario_created a_file [1, 2, 3] 3 0
          { ret := - EIO, new_pos := 0 }) =
      Except.ok 3 := by
  have hopen := scenario_created_dev_null
  refine ⟨?_, ?_, ?_⟩
  · have h := wofs_write_reports_full_length scenario_created _ a_file []
      0 { ret := 0, new_pos := 0 } hopen (by decide)
    simp only [List.length_nil] at h
    rw [h]; rfl
  · have h := wofs_write_reports_full_length scenario_created _ a_file
      (List.replicate 1024 7) 0 { ret := 100, new_pos := 100 } hopen
      (by rw [List.length_replicate]; decide)
    simp only [List.length_replicate] at h
    rw [h]; rfl
  · have h := wofs_write_reports_full_length scenario_created _ a_file
      [1, 2, 3] 0 { ret := - EIO, new_pos := 0 } hopen (by decide)
    simp only [List.length_cons, List.length_nil] at h
    rw [h]; rfl

/-- C3 as stated fails: after a load attempt in which `/dev/null` could not
be opened, `dev_null_file` holds `ERR_PTR(-ENOENT)`, which is not `NULL`, and
`wofs_write` goes on to `kernel_write` with that pointer instead of returning
`-EIO`. -/
theorem wofs_write_after_failed_open_skips_eio :
    open_failed.dev_null_file = Ptr.err (- ENOENT) ∧
    wofs_write open_failed a_file [1, 2, 3] 3 0 { ret := 3, new_pos := 3 } =
      Except.error Fault.bad_pointer ∧
    wofs_write open_failed a_file [1, 2, 3] 3 0 { ret := 3, new_pos := 3 } ≠
      Except.ok { ret := - EIO, ppos := 0, state := open_failed } := by
  have h : open_failed.dev_null_file = Ptr.err (- ENOENT) := by
    simp [open_failed, wofs_init, open_dev_null, filp_open, ERR_PTR, IS_ERR,
      PTR_ERR, boot, ENOENT, MAX_ERRNO]
  refine ⟨h, ?_, ?_⟩ <;>
    simp [wofs_write, kernel_write, h, Ptr.truthy]

/-- C3, amended: in every state where `dev_null_file` is `NULL` (never
initialised, or torn down by `wofs_exit`), `wofs_write` returns `-EIO` for
every buffer, count and offset, forwards nothing and leaves the state and the
caller's position as they were. -/
theorem wofs_write_null_sink_eio (s : State) (fl : file) (b : List UInt8)
    (count : Nat) (ppos : Int) (reply : kw_reply)
    (hnull : s.dev_null_file = Ptr.null) :
    wofs_write s fl b count ppos reply =
      Except.ok { ret := - EIO, ppos := ppos, state := s } ∧
    - EIO < 0 := by
  constructor
  · simp [wofs_write, hnull, Ptr.truthy]
  · decide

/-- Witness for C3 as amended: a write before `wofs_init` has run, and a write
after `wofs_exit` has closed the sink of a loaded module. -/
theorem wofs_write_null_sink_eio_witness :
    (boot 0).dev_null_file = Ptr.null ∧
    wofs_write (boot 0) a_file [1, 2, 3] 3 5000 { ret := 3, new_pos := 3 } =
      Except.ok { ret := - EIO, ppos := 5000, state := boot 0 } ∧
    (wofs_exit (loaded 0)).dev_null_file = Ptr.null ∧
    wofs_write (wofs_exit (loaded 0)) a_file [1, 2, 3] 3 0
        { ret := 3, new_pos := 3 } =
      Except.ok { ret := - EIO, ppos := 0, state := wofs_exit (loaded 0) } :=
  ⟨rfl,
   (wofs_write_null_sink_eio (boot 0) a_file [1, 2, 3] 3 5000
     { ret := 3, new_pos := 3 } rfl).1,
   by decide,
   (wofs_write_null_sink_eio (wofs_exit (loaded 0)) a_file [1, 2, 3] 3 0
     { ret := 3, new_pos := 3 } (by decide)).1⟩

/-- C8: for every state, buffer, count and answer of the kernel, two calls of
`wofs_write` that differ only in the caller's offset return the same value
and leave the same state; a call that returns leaves the caller's position
cell as it found it; and when the sink is open the one `kernel_write` made
is given the sink's own `f_pos` cell and position, not the caller's. -/
theorem wofs_write_ignores_offset (s : State) (fl : file) (b : List UInt8)
    (count : Nat) (p1 p2 : Int) (reply : kw_reply) :
    Except.map write_out.ret (wofs_write s fl b count p1 reply) =
      Except.map write_out.ret (wofs_write s fl b count p2 reply) ∧
    Except.map write_out.state (wofs_write s fl b count p1 reply) =
      Except.map write_out.state (wofs_write s fl b count p2 reply) ∧
    (∀ out, wofs_write s fl b count p1 reply = Except.ok out → out.ppos = p1) ∧
    (∀ f, wofs_write { s with dev_null_file := Ptr.obj f } fl b count p1 reply =
      Except.ok
        { ret := to_ssize_t count
          ppos := p1
          state :=
            { s with
              dev_null_file := Ptr.obj { f with f_pos := reply.new_pos }
              kwrites := { target := f, data := b, count := count
                           pos_ref := loff_ref.dev_null_f_pos
                           pos := f.f_pos } :: s.kwrites } }) := by
  refine ⟨?_, ?_, ?_, ?_⟩
  · cases h : s.dev_null_file <;>
      simp [wofs_write, kernel_write, h, Ptr.truthy, Except.map]
  · cases h : s.dev_null_file <;>
      simp [wofs_write, kernel_write, h, Ptr.truthy, Except.map]
  · intro out
    cases h : s.dev_null_file <;>
      simp [wofs_write, kernel_write, h, Ptr.truthy]
    · intro ho; rw [← ho]
    · intro ho; rw [← ho]
  · intro f
    simp [wofs_write, kernel_write, Ptr.truthy]

/-- After `wofs_exit` the reference is `NULL` when it was `NULL` or pointed
to an open file. -/
theorem wofs_exit_clears (s : State) (h : ∀ e, s.dev_null_file ≠ Ptr.err e) :
    (wofs_exit s).dev_null_file = Ptr.null := by
  cases hd : s.dev_null_file with
  | null =>
    simp [wofs_exit, misc_deregister, unregister_filesystem, hd, Ptr.truthy]
  | obj f =>
    simp [wofs_exit, filp_close, misc_deregister, unregister_filesystem, hd,
      Ptr.truthy, IS_ERR]
  | err e => exact absurd hd (h e)

/-- A second `wofs_exit` changes nothing. -/
theorem wofs_exit_twice (s : State) : wofs_exit (wofs_exit s) = wofs_exit s := by
  cases hd : s.dev_null_file with
  | null =>
    simp [wofs_exit, misc_deregister, unregister_filesystem, hd, Ptr.truthy]
  | obj f =>
    simp [wofs_exit, filp_close, misc_deregister, unregister_filesystem, hd,
      Ptr.truthy, IS_ERR]
  | err e =>
    cases hi : IS_ERR (Ptr.err e : Ptr file) <;>
      simp [wofs_exit, filp_close, misc_deregister, unregister_filesystem, hd,
        Ptr.truthy, hi]

/-- One `wofs_exit` makes at most one call of `filp_close`. -/
theorem wofs_exit_closes_at_most_once (s : State) :
    (wofs_exit s).closed.length ≤ s.closed.length + 1 := by
  cases hd : s.dev_null_file with
  | null =>
    simp [wofs_exit, misc_deregister, unregister_filesystem, hd, Ptr.truthy]
  | obj f =>
    simp [wofs_exit, filp_close, misc_deregister, unregister_filesystem, hd,
      Ptr.truthy, IS_ERR]
  | err e =>
    cases hi : IS_ERR (Ptr.err e : Ptr file) <;>
      simp [wofs_exit, filp_close, misc_deregister, unregister_filesystem, hd,
        Ptr.truthy, hi]

/-- C10 as stated fails: when `dev_null_file` holds the error value a failed
`open_dev_null` left there, `wofs_exit` does not clear it. -/
theorem wofs_exit_keeps_error_value :
    open_failed.dev_null_file = Ptr.err (- ENOENT) ∧
    (wofs_exit open_failed).dev_null_file = Ptr.err (- ENOENT) ∧
    (wofs_exit open_failed).dev_null_file ≠ Ptr.null := by
  have h : open_failed.dev_null_file = Ptr.err (- ENOENT) := by
    simp [open_failed, wofs_init, open_dev_null, filp_open, ERR_PTR, IS_ERR,
      PTR_ERR, boot, ENOENT, MAX_ERRNO]
  refine ⟨h, ?_, ?_⟩ <;>
    simp [wofs_exit, filp_close, misc_deregister, unregister_filesystem, h,
      Ptr.truthy, IS_ERR, ENOENT, MAX_ERRNO]

/-- C10, amended: the release in `wofs_exit` is idempotent and null-safe. When
the reference points to an open file, `filp_close` is called once, on that
file, and the reference becomes `NULL`; when it is `NULL`, or an error value
(an `ERR_PTR` of `-MAX_ERRNO .. -1`), `filp_close` is not called and the
reference is left as it is, so an error value stays. From every state at most
one `filp_close` happens, and a second `wofs_exit` changes nothing and closes
nothing. -/
theorem wofs_exit_release_idempotent (s : State) (f : file) (e : Int)
    (hlo : - MAX_ERRNO ≤ e) (hhi : e < 0) :
    (wofs_exit { s with dev_null_file := Ptr.obj f }).dev_null_file = Ptr.null ∧
    (wofs_exit { s with dev_null_file := Ptr.obj f }).closed =
      Ptr.obj f :: s.closed ∧
    (wofs_exit { s with dev_null_file := Ptr.null }).dev_null_file = Ptr.null ∧
    (wofs_exit { s with dev_null_file := Ptr.null }).closed = s.closed ∧
    (wofs_exit { s with dev_null_file := Ptr.err e }).dev_null_file = Ptr.err e ∧
    (wofs_exit { s with dev_null_file := Ptr.err e }).closed = s.closed ∧
    (wofs_exit s).closed.length ≤ s.closed.length + 1 ∧
    wofs_exit (wofs_exit s) = wofs_exit s ∧
    (wofs_exit (wofs_exit s)).closed = (wofs_exit s).closed := by
  have hi : IS_ERR (Ptr.err e : Ptr file) = true := by
    simp [IS_ERR, hlo, hhi]
  have ho : IS_ERR (Ptr.obj f) = false := rfl
  have hn : IS_ERR (Ptr.null : Ptr file) = false := rfl
  refine ⟨?_, ?_, ?_, ?_, ?_, ?_, wofs_exit_closes_at_most_once s,
    wofs_exit_twice s, by rw [wofs_exit_twice]⟩ <;>
    simp [wofs_exit, filp_close, misc_deregister, unregister_filesystem,
      Ptr.truthy, hi, ho, hn]

/-- Witness for C10 as amended: on the loaded module with the reference set
to an open file, to `NULL` and to `ERR_PTR(-ENOENT)`. -/
theorem wofs_exit_release_idempotent_witness :
    - MAX_ERRNO ≤ - ENOENT ∧ - ENOENT < 0 ∧
    (wofs_exit { loaded 0 with dev_null_file := Ptr.obj a_file }).closed =
      [Ptr.obj a_file] ∧
    (wofs_exit { loaded 0 with dev_null_file := Ptr.err (- ENOENT) }).dev_null_file =
      Ptr.err (- ENOENT) ∧
    (wofs_exit { loaded 0 with dev_null_file := Ptr.err (- ENOENT) }).closed = [] ∧
    wofs_exit (wofs_exit (loaded 0)) = wofs_exit (loaded 0) :=
  have h := wofs_exit_release_idempotent (loaded 0) a_file (- ENOENT)
    (by decide) (by decide)
  ⟨by decide, by decide, h.2.1, h.2.2.2.2.1, h.2.2.2.2.2.1, h.2.2.2.2.2.2.2.1⟩

/-- C4 as stated fails: load, mount, create `a.txt` with the exclusive flag,
write 1024 bytes (returns 1024), unmount; the sink is still open, and a write
of 10 bytes at offset 5000 on the stale file returns 10, not `-EIO`. -/
theorem wofs_write_after_unmount_still_counts :
    Except.map write_out.ret
        (wofs_write scenario_created a_file (List.replicate 1024 0) 1024 0
          { ret := 1024, new_pos := 0 }) = Except.ok 1024 ∧
    scenario_unmounted.sb.s_root = none ∧
    scenario_unmounted.inodes = [] ∧
    scenario_unmounted.dev_null_file = Ptr.obj { f_inode := 0, f_pos := 0 } ∧
    Except.map write_out.ret
        (wofs_write scenario_unmounted a_file (List.replicate 10 0) 10 5000
          { ret := 10, new_pos := 0 }) = Except.ok 10 ∧
    Except.map write_out.ret
        (wofs_write scenario_unmounted a_file (List.replicate 10 0) 10 5000
          { ret := 10, new_pos := 0 }) ≠ Except.ok (- EIO) := by
  have hopen := scenario_created_dev_null
  have hu := scenario_unmounted_dev_null
  have h10 : to_ssize_t 10 = 10 := by decide
  have h1024 : to_ssize_t 1024 = 1024 := by decide
  refine ⟨?_, rfl, rfl, hu, ?_, ?_⟩
  · rw [wofs_write_open _ _ _ _ _ _ _ hopen, h1024]; rfl
  · rw [wofs_write_open _ _ _ _ _ _ _ hu, h10]; rfl
  · rw [wofs_write_open _ _ _ _ _ _ _ hu, h10]
    simp [Except.map, EIO]

/-- C4, amended: the sink is released by `wofs_exit` (module unload), not by
unmounting, which leaves `dev_null_file` as it is. After `wofs_exit` from any
state whose reference is `NULL` or points to an open file, whether or not the
filesystem was unmounted first, every `wofs_write` returns `-EIO` and forwards nothing. -/
theorem wofs_write_after_exit_eio (s : State) (fl : file) (b : List UInt8)
    (count : Nat) (ppos : Int) (reply : kw_reply)
    (h : ∀ e, s.dev_null_file ≠ Ptr.err e) :
    (kill_litter_super s).dev_null_file = s.dev_null_file ∧
    wofs_write (wofs_exit s) fl b count ppos reply =
      Except.ok { ret := - EIO, ppos := ppos, state := wofs_exit s } ∧
    wofs_write (wofs_exit (kill_litter_super s)) fl b count ppos reply =
      Except.ok { ret := - EIO, ppos := ppos
                  state := wofs_exit (kill_litter_super s) } := by
  have hk : (kill_litter_super s).dev_null_file = s.dev_null_file := rfl
  refine ⟨hk, ?_, ?_⟩
  · simp [wofs_write, wofs_exit_clears s h, Ptr.truthy]
  · simp [wofs_write, wofs_exit_clears (kill_litter_super s) h, Ptr.truthy]

/-- Witness for C4 as amended: in the scenario, after unmount and module
unload the write on the stale file returns `-EIO`. -/
theorem wofs_write_after_exit_eio_witness :
    (∀ e, scenario_unmounted.dev_null_file ≠ Ptr.err e) ∧
    wofs_write (wofs_exit scenario_unmounted) a_file (List.replicate 10 0) 10
        5000 { ret := 10, new_pos := 0 } =
      Except.ok { ret := - EIO, ppos := 5000
                  state := wofs_exit scenario_unmounted } := by
  have hu : ∀ e, scenario_unmounted.dev_null_file ≠ Ptr.err e := by
    intro e; rw [scenario_unmounted_dev_null]; simp
  exact ⟨hu, (wofs_write_after_exit_eio scenario_unmounted a_file
    (List.replicate 10 0) 10 5000 { ret := 10, new_pos := 0 } hu).2.1⟩

/-! ## Inode numbers along a run -/

end Wofs
